import Mathlib

/-!
Shallow embedding of `src/cmd/controller-manager/app/options/options.go`
from the kubesphere repository.

The file under verification is an option-aggregation layer: a struct
bundling ten externally defined sub-option groups plus leader-election,
webhook and selector fields, with a default constructor
(`NewKubeSphereControllerManagerOptions`), a flag-registration entry point
(`Flags`) and a validation entry point (`Validate`).

The sub-option groups (Kubernetes, DevOps/Jenkins, S3, authentication,
LDAP, OpenPitrix, network, multi-cluster, service-mesh, gateway) and the
label-selector parser `labels.Parse` live outside the given source slice;
the source consumes each group only through its default constructor, its
`AddFlags` method and its `Validate` method.  We therefore model them as
opaque types (`SubTypes`) together with those operations (`SubModules`),
over which every theorem is parameterized.

Go `time.Duration` is an `int64` count of nanoseconds; we model it as
`Int` with `second = 1000000000`.  Go methods with a pointer receiver are
translated with explicit state passing: `Validate` returns the (possibly
updated) receiver together with the error list, making mutation — or its
absence — visible in the embedding.
-/

/-- One nanosecond-counted second, the value of Go's `time.Second`. -/
def second : Int := 1000000000

/-- The three duration fields of `leaderelection.LeaderElectionConfig`
that the source file sets and binds (`LeaseDuration`, `RenewDeadline`,
`RetryPeriod`); the remaining fields of the external struct are never
touched by this slice. Durations are nanosecond counts. -/
structure LeaderElectionConfig where
  LeaseDuration : Int
  RenewDeadline : Int
  RetryPeriod : Int
deriving DecidableEq, Repr

/-- A registered command-line flag value: the source registers boolean
(`BoolVar`), string (`StringVar`) and duration (`DurationVar`) flags. -/
inductive FlagValue where
  | boolVal (b : Bool)
  | stringVal (s : String)
  | durationVal (d : Int)
deriving DecidableEq, Repr

/-- A registered flag: its CLI name and its registered default value. -/
structure CliFlag where
  name : String
  defaultValue : FlagValue
deriving DecidableEq, Repr

/-- The opaque types supplied by the external modules: the error type `E`
and one state type per sub-option group (Kubernetes, DevOps, S3,
authentication, LDAP, OpenPitrix, network, multi-cluster, service-mesh,
gateway). -/
structure SubTypes where
  E : Type
  K : Type
  D : Type
  S3 : Type
  A : Type
  L : Type
  O : Type
  N : Type
  M : Type
  SM : Type
  G : Type

/-- The external operations the source slice consumes: for each sub-option
group its default constructor, its `Validate` method (returning a list of
errors) and its `AddFlags` method (returning the flags it registers), plus
the external `labels.Parse` (only its error component is used by the
source: `some e` means the parse failed with error `e`) and the flag list
of the external `klog` logging library. -/
structure SubModules (t : SubTypes) where
  newKubernetesOptions : t.K
  newDevopsOptions : t.D
  newS3Options : t.S3
  newAuthenticationOptions : t.A
  newLdapOptions : t.L
  newOpenPitrixOptions : t.O
  newNetworkOptions : t.N
  newMultiClusterOptions : t.M
  newServiceMeshOptions : t.SM
  newGatewayOptions : t.G
  kubernetesValidate : t.K → List t.E
  devopsValidate : t.D → List t.E
  s3Validate : t.S3 → List t.E
  authenticationValidate : t.A → List t.E
  ldapValidate : t.L → List t.E
  openPitrixValidate : t.O → List t.E
  networkValidate : t.N → List t.E
  multiClusterValidate : t.M → List t.E
  serviceMeshValidate : t.SM → List t.E
  gatewayValidate : t.G → List t.E
  labelsParse : String → Option t.E
  kubernetesAddFlags : t.K → List CliFlag
  devopsAddFlags : t.D → List CliFlag
  s3AddFlags : t.S3 → List CliFlag
  authenticationAddFlags : t.A → List CliFlag
  ldapAddFlags : t.L → List CliFlag
  openPitrixAddFlags : t.O → List CliFlag
  networkAddFlags : t.N → List CliFlag
  multiClusterAddFlags : t.M → List CliFlag
  serviceMeshAddFlags : t.SM → List CliFlag
  gatewayAddFlags : t.G → List CliFlag
  klogFlags : List CliFlag

/-- `KubeSphereControllerManagerOptions`: the aggregated config struct,
field for field as declared in the source. -/
structure KubeSphereControllerManagerOptions (t : SubTypes) where
  KubernetesOptions : t.K
  DevopsOptions : t.D
  S3Options : t.S3
  AuthenticationOptions : t.A
  LdapOptions : t.L
  OpenPitrixOptions : t.O
  NetworkOptions : t.N
  MultiClusterOptions : t.M
  ServiceMeshOptions : t.SM
  GatewayOptions : t.G
  LeaderElect : Bool
  LeaderElection : LeaderElectionConfig
  WebhookCertDir : String
  ApplicationSelector : String

/-- `NewKubeSphereControllerManagerOptions`: the default constructor.
Every sub-option group is initialized by its own default constructor;
leader election is off, the three election durations are 30s/15s/5s and
the two remaining strings are empty. -/
def NewKubeSphereControllerManagerOptions {t : SubTypes} (m : SubModules t) :
    KubeSphereControllerManagerOptions t :=
  { KubernetesOptions := m.newKubernetesOptions
    DevopsOptions := m.newDevopsOptions
    S3Options := m.newS3Options
    AuthenticationOptions := m.newAuthenticationOptions
    LdapOptions := m.newLdapOptions
    OpenPitrixOptions := m.newOpenPitrixOptions
    NetworkOptions := m.newNetworkOptions
    MultiClusterOptions := m.newMultiClusterOptions
    ServiceMeshOptions := m.newServiceMeshOptions
    GatewayOptions := m.newGatewayOptions
    LeaderElection :=
      { LeaseDuration := 30 * second
        RenewDeadline := 15 * second
        RetryPeriod := 5 * second }
    LeaderElect := false
    WebhookCertDir := ""
    ApplicationSelector := "" }

/-- `Validate`: the source appends, in order, the error lists of the
DevOps, Kubernetes, S3, OpenPitrix, network, LDAP and multi-cluster
groups, then — only when `len(s.ApplicationSelector) != 0` — parses the
selector and appends the parse error when parsing fails.  The Go method
has a pointer receiver, so the translation returns the receiver state
together with the error list. -/
def Validate {t : SubTypes} (m : SubModules t)
    (s : KubeSphereControllerManagerOptions t) :
    KubeSphereControllerManagerOptions t × List t.E :=
  let errs : List t.E := []
  let errs := errs ++ m.devopsValidate s.DevopsOptions
  let errs := errs ++ m.kubernetesValidate s.KubernetesOptions
  let errs := errs ++ m.s3Validate s.S3Options
  let errs := errs ++ m.openPitrixValidate s.OpenPitrixOptions
  let errs := errs ++ m.networkValidate s.NetworkOptions
  let errs := errs ++ m.ldapValidate s.LdapOptions
  let errs := errs ++ m.multiClusterValidate s.MultiClusterOptions
  let errs :=
    if s.ApplicationSelector.length ≠ 0 then
      match m.labelsParse s.ApplicationSelector with
      | some err => errs ++ [err]
      | none => errs
    else errs
  (s, errs)

/-- The concatenation, in source order, of the seven sub-option error
lists that `Validate` actually collects. -/
def subValidateErrors {t : SubTypes} (m : SubModules t)
    (s : KubeSphereControllerManagerOptions t) : List t.E :=
  m.devopsValidate s.DevopsOptions ++
    m.kubernetesValidate s.KubernetesOptions ++
    m.s3Validate s.S3Options ++
    m.openPitrixValidate s.OpenPitrixOptions ++
    m.networkValidate s.NetworkOptions ++
    m.ldapValidate s.LdapOptions ++
    m.multiClusterValidate s.MultiClusterOptions

/-- The selector contribution of `Validate`: one parse error when the
selector is non-empty and fails to parse, otherwise nothing. -/
def selectorErrors {t : SubTypes} (m : SubModules t)
    (s : KubeSphereControllerManagerOptions t) : List t.E :=
  if s.ApplicationSelector.length ≠ 0 then
    match m.labelsParse s.ApplicationSelector with
    | some err => [err]
    | none => []
  else []

/-- `strings.Replace(name, "_", "-", -1)` as applied to klog flag names:
every underscore becomes a hyphen. -/
def replaceUnderscores (s : String) : String :=
  s.map (fun c => if c = '_' then '-' else c)

/-- `cliflag.NamedFlagSets.FlagSet(name)` followed by registrations:
appends the given flags to the named group, creating the group at the end
of the ordered collection when it does not exist yet. -/
def addFlagsToGroup (fss : List (String × List CliFlag)) (name : String)
    (fl : List CliFlag) : List (String × List CliFlag) :=
  match fss with
  | [] => [(name, fl)]
  | (n, gs) :: rest =>
      if n = name then (n, gs ++ fl) :: rest
      else (n, gs) :: addFlagsToGroup rest name fl

/-- `bindLeaderElectionFlags`: registers the three duration flags bound to
the leader-election config, defaults taken from the current field values. -/
def bindLeaderElectionFlags (l : LeaderElectionConfig) : List CliFlag :=
  [⟨"leader-elect-lease-duration", .durationVal l.LeaseDuration⟩,
   ⟨"leader-elect-renew-deadline", .durationVal l.RenewDeadline⟩,
   ⟨"leader-elect-retry-period", .durationVal l.RetryPeriod⟩]

/-- `Flags`: builds the named flag-set collection in source order — the
ten sub-option groups under their group names, then the `leaderelection`
group (three duration flags via `bindLeaderElectionFlags`, then the
`leader-elect` boolean and the `webhook-cert-dir` string), the `generic`
group with `application-selector`, and the `klog` group holding the
external logging flags with underscores rewritten to hyphens. -/
def Flags {t : SubTypes} (m : SubModules t)
    (s : KubeSphereControllerManagerOptions t) :
    List (String × List CliFlag) :=
  let fss : List (String × List CliFlag) := []
  let fss := addFlagsToGroup fss "kubernetes" (m.kubernetesAddFlags s.KubernetesOptions)
  let fss := addFlagsToGroup fss "devops" (m.devopsAddFlags s.DevopsOptions)
  let fss := addFlagsToGroup fss "s3" (m.s3AddFlags s.S3Options)
  let fss := addFlagsToGroup fss "authentication" (m.authenticationAddFlags s.AuthenticationOptions)
  let fss := addFlagsToGroup fss "ldap" (m.ldapAddFlags s.LdapOptions)
  let fss := addFlagsToGroup fss "openpitrix" (m.openPitrixAddFlags s.OpenPitrixOptions)
  let fss := addFlagsToGroup fss "network" (m.networkAddFlags s.NetworkOptions)
  let fss := addFlagsToGroup fss "multicluster" (m.multiClusterAddFlags s.MultiClusterOptions)
  let fss := addFlagsToGroup fss "servicemesh" (m.serviceMeshAddFlags s.ServiceMeshOptions)
  let fss := addFlagsToGroup fss "gateway" (m.gatewayAddFlags s.GatewayOptions)
  let fss := addFlagsToGroup fss "leaderelection" (bindLeaderElectionFlags s.LeaderElection)
  let fss := addFlagsToGroup fss "leaderelection"
    [⟨"leader-elect", .boolVal s.LeaderElect⟩,
     ⟨"webhook-cert-dir", .stringVal s.WebhookCertDir⟩]
  let fss := addFlagsToGroup fss "generic"
    [⟨"application-selector", .stringVal s.ApplicationSelector⟩]
  let fss := addFlagsToGroup fss "klog"
    (m.klogFlags.map (fun fl => { fl with name := replaceUnderscores fl.name }))
  fss

/-- The concrete opaque types used to evaluate the embedding: `Unit`
group states and `Nat` error codes. -/
@[reducible] def demoTypes : SubTypes where
  E := Nat
  K := Unit
  D := Unit
  S3 := Unit
  A := Unit
  L := Unit
  O := Unit
  N := Unit
  M := Unit
  SM := Unit
  G := Unit

/-- A concrete instantiation of the external modules over `demoTypes`,
used to evaluate the embedding on concrete inputs: each group's validator
returns the given fixed error list and registers no flags. -/
def demoModules
    (kErrs dErrs s3Errs aErrs lErrs oErrs nErrs mErrs smErrs gErrs : List Nat)
    (parse : String → Option Nat) : SubModules demoTypes where
  newKubernetesOptions := ()
  newDevopsOptions := ()
  newS3Options := ()
  newAuthenticationOptions := ()
  newLdapOptions := ()
  newOpenPitrixOptions := ()
  newNetworkOptions := ()
  newMultiClusterOptions := ()
  newServiceMeshOptions := ()
  newGatewayOptions := ()
  kubernetesValidate := fun _ => kErrs
  devopsValidate := fun _ => dErrs
  s3Validate := fun _ => s3Errs
  authenticationValidate := fun _ => aErrs
  ldapValidate := fun _ => lErrs
  openPitrixValidate := fun _ => oErrs
  networkValidate := fun _ => nErrs
  multiClusterValidate := fun _ => mErrs
  serviceMeshValidate := fun _ => smErrs
  gatewayValidate := fun _ => gErrs
  labelsParse := parse
  kubernetesAddFlags := fun _ => []
  devopsAddFlags := fun _ => []
  s3AddFlags := fun _ => []
  authenticationAddFlags := fun _ => []
  ldapAddFlags := fun _ => []
  openPitrixAddFlags := fun _ => []
  networkAddFlags := fun _ => []
  multiClusterAddFlags := fun _ => []
  serviceMeshAddFlags := fun _ => []
  gatewayAddFlags := fun _ => []
  klogFlags := []

/-- A demo parser accepting everything except the malformed selector
`==`, on which it fails with error code 9. -/
def demoParse (str : String) : Option Nat :=
  if str = "==" then some 9 else none

/-- Helper: the error list returned by `Validate` splits into the seven
collected sub-option error lists followed by the selector contribution. -/
theorem validate_errors_split {t : SubTypes} (m : SubModules t)
    (s : KubeSphereControllerManagerOptions t) :
    (Validate m s).2 = subValidateErrors m s ++ selectorErrors m s := by
  simp only [Validate, subValidateErrors, selectorErrors]
  split
  · cases m.labelsParse s.ApplicationSelector <;> simp [List.append_assoc]
  · simp [List.append_assoc]

/-- Claim C3: the default constructor is total (no inputs from the config
domain, no failure mode) and returns a config in which every sub-option
group is its module's default constructor, leader election is disabled,
the lease duration is 30s, the renew deadline 15s, the retry period 5s,
and the webhook certificate directory and application selector are both
empty. -/
theorem new_options_defaults {t : SubTypes} (m : SubModules t) :
    (NewKubeSphereControllerManagerOptions m).KubernetesOptions = m.newKubernetesOptions ∧
    (NewKubeSphereControllerManagerOptions m).DevopsOptions = m.newDevopsOptions ∧
    (NewKubeSphereControllerManagerOptions m).S3Options = m.newS3Options ∧
    (NewKubeSphereControllerManagerOptions m).AuthenticationOptions = m.newAuthenticationOptions ∧
    (NewKubeSphereControllerManagerOptions m).LdapOptions = m.newLdapOptions ∧
    (NewKubeSphereControllerManagerOptions m).OpenPitrixOptions = m.newOpenPitrixOptions ∧
    (NewKubeSphereControllerManagerOptions m).NetworkOptions = m.newNetworkOptions ∧
    (NewKubeSphereControllerManagerOptions m).MultiClusterOptions = m.newMultiClusterOptions ∧
    (NewKubeSphereControllerManagerOptions m).ServiceMeshOptions = m.newServiceMeshOptions ∧
    (NewKubeSphereControllerManagerOptions m).GatewayOptions = m.newGatewayOptions ∧
    (NewKubeSphereControllerManagerOptions m).LeaderElect = false ∧
    (NewKubeSphereControllerManagerOptions m).LeaderElection.LeaseDuration = 30 * second ∧
    (NewKubeSphereControllerManagerOptions m).LeaderElection.RenewDeadline = 15 * second ∧
    (NewKubeSphereControllerManagerOptions m).LeaderElection.RetryPeriod = 5 * second ∧
    (NewKubeSphereControllerManagerOptions m).WebhookCertDir = "" ∧
    (NewKubeSphereControllerManagerOptions m).ApplicationSelector = "" :=
  ⟨rfl, rfl, rfl, rfl, rfl, rfl, rfl, rfl, rfl, rfl, rfl, rfl, rfl, rfl, rfl, rfl⟩

/-- Claim C5: `Validate` is pure and idempotent — calling it a second
time on the config it returned yields the same config and the identical
error list. -/
theorem validate_idempotent {t : SubTypes} (m : SubModules t)
    (s : KubeSphereControllerManagerOptions t) :
    Validate m (Validate m s).1 = Validate m s := rfl

/-- Claim C6: `Validate` leaves the config unchanged — each of the
fourteen fields of the returned config equals the corresponding field of
the input config. -/
theorem validate_preserves_config {t : SubTypes} (m : SubModules t)
    (s : KubeSphereControllerManagerOptions t) :
    (Validate m s).1.KubernetesOptions = s.KubernetesOptions ∧
    (Validate m s).1.DevopsOptions = s.DevopsOptions ∧
    (Validate m s).1.S3Options = s.S3Options ∧
    (Validate m s).1.AuthenticationOptions = s.AuthenticationOptions ∧
    (Validate m s).1.LdapOptions = s.LdapOptions ∧
    (Validate m s).1.OpenPitrixOptions = s.OpenPitrixOptions ∧
    (Validate m s).1.NetworkOptions = s.NetworkOptions ∧
    (Validate m s).1.MultiClusterOptions = s.MultiClusterOptions ∧
    (Validate m s).1.ServiceMeshOptions = s.ServiceMeshOptions ∧
    (Validate m s).1.GatewayOptions = s.GatewayOptions ∧
    (Validate m s).1.LeaderElect = s.LeaderElect ∧
    (Validate m s).1.LeaderElection = s.LeaderElection ∧
    (Validate m s).1.WebhookCertDir = s.WebhookCertDir ∧
    (Validate m s).1.ApplicationSelector = s.ApplicationSelector :=
  ⟨rfl, rfl, rfl, rfl, rfl, rfl, rfl, rfl, rfl, rfl, rfl, rfl, rfl, rfl⟩

/-- Claim C7: in the default-constructed config the leader-election
durations satisfy the strict ordering retryPeriod < renewDeadline <
leaseDuration, concretely 5 seconds < 15 seconds < 30 seconds. -/
theorem default_leader_election_ordering {t : SubTypes} (m : SubModules t) :
    (NewKubeSphereControllerManagerOptions m).LeaderElection.RetryPeriod = 5 * second ∧
    (NewKubeSphereControllerManagerOptions m).LeaderElection.RenewDeadline = 15 * second ∧
    (NewKubeSphereControllerManagerOptions m).LeaderElection.LeaseDuration = 30 * second ∧
    (NewKubeSphereControllerManagerOptions m).LeaderElection.RetryPeriod <
      (NewKubeSphereControllerManagerOptions m).LeaderElection.RenewDeadline ∧
    (NewKubeSphereControllerManagerOptions m).LeaderElection.RenewDeadline <
      (NewKubeSphereControllerManagerOptions m).LeaderElection.LeaseDuration := by
  refine ⟨rfl, rfl, rfl, ?_, ?_⟩ <;>
    norm_num [NewKubeSphereControllerManagerOptions, second]

/-- Claim C9: `Validate` performs no cross-check on the leader-election
fields: changing only the leader-elect boolean, the three leader-election
durations and the webhook certificate directory does not change the
returned error list, so no ordering constraint among the durations is
enforced. -/
theorem validate_ignores_leader_election {t : SubTypes} (m : SubModules t)
    (s : KubeSphereControllerManagerOptions t) (b : Bool)
    (lc : LeaderElectionConfig) (w : String) :
    (Validate m
        { s with LeaderElect := b, LeaderElection := lc, WebhookCertDir := w }).2 =
      (Validate m s).2 := rfl

/-- Claim C10: the error list returned by `Validate` is the concatenation
of the DevOps, Kubernetes, S3, OpenPitrix, network, LDAP and
multi-cluster error lists in that order, with the selector parse error
(when one occurs) appearing last. -/
theorem validate_error_order {t : SubTypes} (m : SubModules t)
    (s : KubeSphereControllerManagerOptions t) :
    (Validate m s).2 =
      m.devopsValidate s.DevopsOptions ++
        m.kubernetesValidate s.KubernetesOptions ++
        m.s3Validate s.S3Options ++
        m.openPitrixValidate s.OpenPitrixOptions ++
        m.networkValidate s.NetworkOptions ++
        m.ldapValidate s.LdapOptions ++
        m.multiClusterValidate s.MultiClusterOptions ++
        selectorErrors m s := by
  rw [validate_errors_split]
  simp [subValidateErrors, List.append_assoc]

/-- Helper: a string has length zero exactly when it is the empty string. -/
theorem string_length_zero_iff (s : String) : s.length = 0 ↔ s = "" := by
  obtain ⟨data⟩ := s
  constructor
  · intro h
    have hd : data = [] := List.length_eq_zero.mp h
    rw [hd]
  · intro h
    rw [h]
    rfl

/-- Claim C1 as stated is false: with external modules whose
authentication validator reports error 1 while every other validator
reports nothing, the authentication error does not appear in the list
returned by `Validate` on the default config — the source never invokes
the authentication, service-mesh or gateway validators. -/
theorem validate_c1_counterexample :
    (demoModules [] [] [] [1] [] [] [] [] [] [] (fun _ => none)).authenticationValidate
        (NewKubeSphereControllerManagerOptions
          (demoModules [] [] [] [1] [] [] [] [] [] [] (fun _ => none))).AuthenticationOptions =
      [1] ∧
    (Validate (demoModules [] [] [] [1] [] [] [] [] [] [] (fun _ => none))
        (NewKubeSphereControllerManagerOptions
          (demoModules [] [] [] [1] [] [] [] [] [] [] (fun _ => none)))).2 = [] ∧
    1 ∉ (Validate (demoModules [] [] [] [1] [] [] [] [] [] [] (fun _ => none))
        (NewKubeSphereControllerManagerOptions
          (demoModules [] [] [] [1] [] [] [] [] [] [] (fun _ => none)))).2 := by
  refine ⟨rfl, rfl, fun h => List.not_mem_nil 1 h⟩

/-- Claim C1 amended: `Validate` invokes the validators of only seven of
the ten sub-option groups — DevOps, Kubernetes, S3, OpenPitrix, network,
LDAP and multi-cluster; every error one of those seven reports appears in
the returned list, and the result is independent of the authentication,
service-mesh and gateway validators. -/
theorem validate_collects_seven_groups {t : SubTypes} (m : SubModules t)
    (s : KubeSphereControllerManagerOptions t) :
    (∀ e : t.E,
      e ∈ m.devopsValidate s.DevopsOptions ∨
        e ∈ m.kubernetesValidate s.KubernetesOptions ∨
        e ∈ m.s3Validate s.S3Options ∨
        e ∈ m.openPitrixValidate s.OpenPitrixOptions ∨
        e ∈ m.networkValidate s.NetworkOptions ∨
        e ∈ m.ldapValidate s.LdapOptions ∨
        e ∈ m.multiClusterValidate s.MultiClusterOptions →
      e ∈ (Validate m s).2) ∧
    (∀ fA : t.A → List t.E, ∀ fSM : t.SM → List t.E, ∀ fG : t.G → List t.E,
      (Validate
          { m with
            authenticationValidate := fA,
            serviceMeshValidate := fSM,
            gatewayValidate := fG } s).2 =
        (Validate m s).2) := by
  constructor
  · intro e he
    rw [validate_errors_split]
    simp only [subValidateErrors, List.mem_append]
    tauto
  · intro fA fSM fG
    rfl

/-- Witness for the amended claim C1: a concretely reported DevOps error
appears in the returned list. -/
theorem validate_collects_seven_groups_witness :
    5 ∈ (Validate (demoModules [] [5] [] [] [] [] [] [] [] [] (fun _ => none))
        (NewKubeSphereControllerManagerOptions
          (demoModules [] [5] [] [] [] [] [] [] [] [] (fun _ => none)))).2 :=
  (validate_collects_seven_groups
      (demoModules [] [5] [] [] [] [] [] [] [] [] (fun _ => none))
      (NewKubeSphereControllerManagerOptions
        (demoModules [] [5] [] [] [] [] [] [] [] [] (fun _ => none)))).1
    5 (Or.inl (List.mem_singleton.mpr rfl))

/-- Claim C2: the selector contributes exactly one error exactly when the
selector string is non-empty and fails to parse; with an empty selector
the parser is never consulted — the result is the same for every parser —
and nothing is contributed beyond the sub-option errors. -/
theorem validate_selector_cases {t : SubTypes} (m : SubModules t)
    (s : KubeSphereControllerManagerOptions t) :
    (s.ApplicationSelector = "" →
      ∀ p : String → Option t.E,
        (Validate { m with labelsParse := p } s).2 = subValidateErrors m s) ∧
    (s.ApplicationSelector ≠ "" →
      ∀ e : t.E, m.labelsParse s.ApplicationSelector = some e →
        (Validate m s).2 = subValidateErrors m s ++ [e]) ∧
    (s.ApplicationSelector ≠ "" →
      m.labelsParse s.ApplicationSelector = none →
        (Validate m s).2 = subValidateErrors m s) := by
  have hiff := string_length_zero_iff s.ApplicationSelector
  refine ⟨?_, ?_, ?_⟩
  · intro h p
    rw [validate_errors_split]
    have hlen : s.ApplicationSelector.length = 0 := hiff.mpr h
    simp [selectorErrors, subValidateErrors, hlen]
  · intro h e he
    rw [validate_errors_split]
    have hlen : s.ApplicationSelector.length ≠ 0 := fun hc => h (hiff.mp hc)
    simp [selectorErrors, hlen, he]
  · intro h he
    rw [validate_errors_split]
    have hlen : s.ApplicationSelector.length ≠ 0 := fun hc => h (hiff.mp hc)
    simp [selectorErrors, hlen, he]

/-- Witness for claim C2: with every sub-option validator clean, the
malformed selector `==` yields exactly the one parse error. -/
theorem validate_selector_cases_witness :
    (Validate (demoModules [] [] [] [] [] [] [] [] [] [] demoParse)
        { NewKubeSphereControllerManagerOptions
            (demoModules [] [] [] [] [] [] [] [] [] [] demoParse) with
          ApplicationSelector := "==" }).2 = [9] := by
  rw [(validate_selector_cases
      (demoModules [] [] [] [] [] [] [] [] [] [] demoParse)
      { NewKubeSphereControllerManagerOptions
          (demoModules [] [] [] [] [] [] [] [] [] [] demoParse) with
        ApplicationSelector := "==" }).2.1 (by decide) 9 rfl]
  rfl

/-- Claim C4: under the hypothesis that every sub-option group's
validator returns no errors on its own default value, `Validate` on the
default-constructed config returns the empty error list. -/
theorem default_config_validates_clean {t : SubTypes} (m : SubModules t)
    (hk : m.kubernetesValidate m.newKubernetesOptions = [])
    (hd : m.devopsValidate m.newDevopsOptions = [])
    (hs : m.s3Validate m.newS3Options = [])
    (ha : m.authenticationValidate m.newAuthenticationOptions = [])
    (hl : m.ldapValidate m.newLdapOptions = [])
    (ho : m.openPitrixValidate m.newOpenPitrixOptions = [])
    (hn : m.networkValidate m.newNetworkOptions = [])
    (hmc : m.multiClusterValidate m.newMultiClusterOptions = [])
    (hsm : m.serviceMeshValidate m.newServiceMeshOptions = [])
    (hg : m.gatewayValidate m.newGatewayOptions = []) :
    (Validate m (NewKubeSphereControllerManagerOptions m)).2 = [] := by
  have hsel : selectorErrors m (NewKubeSphereControllerManagerOptions m) = [] := rfl
  rw [validate_errors_split, hsel]
  simp [subValidateErrors, NewKubeSphereControllerManagerOptions, hk, hd, hs,
    hl, ho, hn, hmc]

/-- Witness for claim C4: with all demo validators clean, the default
config validates with no errors. -/
theorem default_config_validates_clean_witness :
    (Validate (demoModules [] [] [] [] [] [] [] [] [] [] demoParse)
        (NewKubeSphereControllerManagerOptions
          (demoModules [] [] [] [] [] [] [] [] [] [] demoParse))).2 = [] :=
  default_config_validates_clean
    (demoModules [] [] [] [] [] [] [] [] [] [] demoParse)
    rfl rfl rfl rfl rfl rfl rfl rfl rfl rfl

/-- Claim C8: flag registration produces exactly the thirteen named
groups in source order — the ten sub-option groups under the names
kubernetes, devops, s3, authentication, ldap, openpitrix, network,
multicluster, servicemesh and gateway, the leaderelection group holding
the three duration flags plus the leader-elect boolean and the
webhook-cert-dir string, the generic group holding the
application-selector string, and the klog logging group in which every
underscore in a flag name is rewritten to a hyphen.  Each flag's
registered default is the corresponding field of the given config, and on
a freshly constructed config those defaults are the construction
defaults. -/
theorem flags_registration {t : SubTypes} (m : SubModules t)
    (s : KubeSphereControllerManagerOptions t) :
    Flags m s =
      [("kubernetes", m.kubernetesAddFlags s.KubernetesOptions),
       ("devops", m.devopsAddFlags s.DevopsOptions),
       ("s3", m.s3AddFlags s.S3Options),
       ("authentication", m.authenticationAddFlags s.AuthenticationOptions),
       ("ldap", m.ldapAddFlags s.LdapOptions),
       ("openpitrix", m.openPitrixAddFlags s.OpenPitrixOptions),
       ("network", m.networkAddFlags s.NetworkOptions),
       ("multicluster", m.multiClusterAddFlags s.MultiClusterOptions),
       ("servicemesh", m.serviceMeshAddFlags s.ServiceMeshOptions),
       ("gateway", m.gatewayAddFlags s.GatewayOptions),
       ("leaderelection",
         [⟨"leader-elect-lease-duration", .durationVal s.LeaderElection.LeaseDuration⟩,
          ⟨"leader-elect-renew-deadline", .durationVal s.LeaderElection.RenewDeadline⟩,
          ⟨"leader-elect-retry-period", .durationVal s.LeaderElection.RetryPeriod⟩,
          ⟨"leader-elect", .boolVal s.LeaderElect⟩,
          ⟨"webhook-cert-dir", .stringVal s.WebhookCertDir⟩]),
       ("generic", [⟨"application-selector", .stringVal s.ApplicationSelector⟩]),
       ("klog",
         m.klogFlags.map (fun fl => { fl with name := replaceUnderscores fl.name }))] ∧
    Flags m (NewKubeSphereControllerManagerOptions m) =
      [("kubernetes", m.kubernetesAddFlags m.newKubernetesOptions),
       ("devops", m.devopsAddFlags m.newDevopsOptions),
       ("s3", m.s3AddFlags m.newS3Options),
       ("authentication", m.authenticationAddFlags m.newAuthenticationOptions),
       ("ldap", m.ldapAddFlags m.newLdapOptions),
       ("openpitrix", m.openPitrixAddFlags m.newOpenPitrixOptions),
       ("network", m.networkAddFlags m.newNetworkOptions),
       ("multicluster", m.multiClusterAddFlags m.newMultiClusterOptions),
       ("servicemesh", m.serviceMeshAddFlags m.newServiceMeshOptions),
       ("gateway", m.gatewayAddFlags m.newGatewayOptions),
       ("leaderelection",
         [⟨"leader-elect-lease-duration", .durationVal (30 * second)⟩,
          ⟨"leader-elect-renew-deadline", .durationVal (15 * second)⟩,
          ⟨"leader-elect-retry-period", .durationVal (5 * second)⟩,
          ⟨"leader-elect", .boolVal false⟩,
          ⟨"webhook-cert-dir", .stringVal ""⟩]),
       ("generic", [⟨"application-selector", .stringVal ""⟩]),
       ("klog",
         m.klogFlags.map (fun fl => { fl with name := replaceUnderscores fl.name }))] :=
  ⟨rfl, rfl⟩
